import Mathlib

/-!
Verification development for the LaTeX-insertion workflow of
src/src/control/LatexController.cpp (the async external render controller).

Conventions of the shallow embedding:
* C++ doubles are idealised as exact rationals.  The single place where
  IEEE-754 special values matter is the aspect-ratio computation in
  LatexController::convertDocumentToImage (division by zero produces an
  infinity or a NaN, never the rational 0); there the value of the division
  is modelled by the extended type Fp below, which distinguishes finite
  values from the non-finite outcomes of dividing by zero.  Page sizes and
  element sizes delivered by the GUI/poppler are non-negative, so a single
  unsigned infinity suffices.
* GLib/GTK calls are modelled by explicit state fields (button
  sensitivity, label text) or by ghost counters (number of spawned
  processes, number of error dialogs shown).
* the external environment (file writes, g_spawn_async success, the
  artifact the tool leaves behind) enters as explicit event parameters.
-/

namespace LatexCtl

/-- Extended value of a C++ double as produced by the division
pageWidth / pageHeight: a finite rational, an infinity (x / 0 with x nonzero)
or a NaN (0 / 0).  Signs are irrelevant because all inputs are sizes. -/
inductive Fp where
  | fin : ℚ → Fp
  | inf : Fp
  | nan : Fp
  deriving Repr, DecidableEq

/-- IEEE division of two non-negative doubles, idealised over the rationals:
the quotient is finite unless the divisor is zero. -/
def fpDiv (a b : ℚ) : Fp :=
  if b = 0 then (if a = 0 then Fp.nan else Fp.inf) else Fp.fin (a / b)

/-- IEEE comparison r == 0 on the result of fpDiv: infinities and NaN are
never equal to zero. -/
def fpEqZero : Fp → Bool
  | Fp.fin q => q == 0
  | Fp.inf => false
  | Fp.nan => false

/-- IEEE product of a finite non-negative double with an fpDiv result
(the expression imgheight * ratio in the source). -/
def fpMulFin (h : ℚ) : Fp → Fp
  | Fp.fin q => Fp.fin (h * q)
  | Fp.inf => if h = 0 then Fp.nan else Fp.inf
  | Fp.nan => Fp.nan

/-- Embedded asset produced from a successful render
(class TexImage, as far as the controller populates it). -/
structure TexImage where
  x : ℚ
  y : ℚ
  text : String
  width : Fp
  height : Fp
  binaryData : String
  deriving Repr, DecidableEq

/-- LatexController::convertDocumentToImage (LatexController.cpp lines
386-434).  Arguments mirror the data read from the PopplerDocument
(page count and first-page size) and the controller fields posx, posy,
currentTex, imgwidth, imgheight.  Returns none when the document has no
pages (the NULL return at line 392).  The returned image has no binary
data yet; loadRendered fills it in. -/
def convertDocumentToImage (nPages : Nat) (pageWidth pageHeight : ℚ)
    (posx posy : ℚ) (currentTex : String) (imgwidth imgheight : ℚ) :
    Option TexImage :=
  if nPages < 1 then
    none
  else
    let w :=
      if imgheight ≠ 0 then
        let ratio := fpDiv pageWidth pageHeight
        if fpEqZero ratio then
          (if imgwidth = 0 then Fp.fin 10 else Fp.fin imgwidth)
        else
          fpMulFin imgheight ratio
      else Fp.fin pageWidth
    let h := if imgheight ≠ 0 then Fp.fin imgheight else Fp.fin pageHeight
    some { x := posx, y := posy, text := currentTex,
           width := w, height := h, binaryData := "" }

/-- Environment facts about the scratch output artifact tex.pdf at the
moment a completion callback runs: whether the file exists, whether
g_file_get_contents succeeds, the raw bytes, whether poppler parses them,
and the parsed page data consumed by convertDocumentToImage. -/
structure ArtifactInfo where
  fileExists : Bool
  readOk : Bool
  contents : String
  parseOk : Bool
  nPages : Nat
  pageWidth : ℚ
  pageHeight : ℚ
  deriving Repr, DecidableEq

/-- Outcome of LatexController::loadRendered.  The C++ function returns a
TexImage pointer that is NULL on the missing / unreadable / unparsable
paths (ok none), and a real image otherwise (ok (some img)) — except that
when the parsed document has zero pages, convertDocumentToImage returns
NULL and the unchecked img->setBinaryData call at line 483 dereferences
that NULL pointer: the function never returns at all.  That aborted
execution is the crash constructor. -/
inductive LoadResult where
  | crash
  | ok (img : Option TexImage)
  deriving Repr, DecidableEq

/-- LatexController::loadRendered (lines 439-488): returns NULL (ok none)
when the artifact is missing, unreadable or unparsable; converts the
document to an image and attaches the raw bytes on success; and crashes on
a parsable zero-page document (NULL dereference at line 483, before any
value is returned to the caller). -/
def loadRendered (posx posy : ℚ) (imgwidth imgheight : ℚ)
    (currentTex : String) (a : ArtifactInfo) : LoadResult :=
  if !a.fileExists then LoadResult.ok none
  else if !a.readOk then LoadResult.ok none
  else if !a.parseOk then LoadResult.ok none
  else
    match convertDocumentToImage a.nPages a.pageWidth a.pageHeight
        posx posy currentTex imgwidth imgheight with
    | none => LoadResult.crash
    | some img => LoadResult.ok (some { img with binaryData := a.contents })

/-- Mutable state of the controller during one dialog session: the fields of
class LatexController that the excerpt reads or writes, the GTK widget state
the controller drives (OK-button sensitivity, error label), the environment
fact of whether the scratch tex.pdf currently exists, and ghost counters for
spawned processes, error dialogs and document insertions. -/
structure SessionState where
  currentTex : String
  lastPreviewedTex : String
  initalTex : String
  posx : ℚ
  posy : ℚ
  imgwidth : ℚ
  imgheight : ℚ
  isUpdating : Bool
  isValidTex : Bool
  temporaryRender : Option TexImage
  okSensitive : Bool
  errorLabel : String
  scratchPdfExists : Bool
  inFlightPreview : Bool
  outstanding : Nat
  spawnCount : Nat
  toolErrorShown : Nat
  insertCount : Nat
  deriving Repr, DecidableEq

/-- LatexController::setUpdating (lines 304-325).  Two successive
gtk_widget_set_sensitive calls on the same OK button: the first (line 314,
guarded by the flag flipping) is immediately overwritten by the second,
unconditional one (line 319), so the sensitivity that survives is
isValidTex.  The error label is set from isValidTex and the isUpdating flag
is stored last. -/
def setUpdating (s : SessionState) (newValue : Bool) : SessionState :=
  let okAfterFirstWrite :=
    if (!s.isUpdating && newValue) || (s.isUpdating && !newValue)
    then !newValue else s.okSensitive
  let s1 := { s with okSensitive := okAfterFirstWrite }
  { s1 with
    okSensitive := s1.isValidTex,
    errorLabel :=
      if s1.isValidTex then "" else "The formula is empty when rendered or invalid.",
    isUpdating := newValue }

/-- Outcome of the environment during one runCommandAsync call: the write of
the scratch .tex file may fail (line 89), g_spawn_async may fail
(line 107), or the child process starts. -/
inductive SpawnEnv where
  | writeFail
  | spawnFail
  | ok
  deriving Repr, DecidableEq

/-- LatexController::runCommandAsync (lines 77-123).  Returns the new state
and whether a non-null pid was produced.  On a write failure the function
returns before touching any state (an error dialog is shown).  On a spawn
failure setUpdating(true),(false) have both run and lastPreviewedTex was
already overwritten (lines 104-105 precede the spawn).  On success one
child process is outstanding.  The g_assert(!isUpdating) at line 80 holds
at every call site because triggerImageUpdate guards on the flag. -/
def runCommandAsync (s : SessionState) (env : SpawnEnv) : SessionState × Bool :=
  match env with
  | SpawnEnv.writeFail =>
      ({ s with toolErrorShown := s.toolErrorShown + 1 }, false)
  | SpawnEnv.spawnFail =>
      let s1 := setUpdating s true
      let s2 := { s1 with lastPreviewedTex := s1.currentTex }
      let s3 := { s2 with toolErrorShown := s2.toolErrorShown + 1 }
      (setUpdating s3 false, false)
  | SpawnEnv.ok =>
      let s1 := setUpdating s true
      let s2 := { s1 with lastPreviewedTex := s1.currentTex }
      ({ s2 with
          outstanding := s2.outstanding + 1,
          spawnCount := s2.spawnCount + 1 }, true)

/-- LatexController::triggerImageUpdate (lines 212-228): the single-flight
gate.  If a render is already in flight the call returns immediately;
otherwise runCommandAsync runs and, when a pid was produced, a child watch
is registered with the isPreview flag as callback data. -/
def triggerImageUpdate (s : SessionState) (isPreview : Bool) (env : SpawnEnv) :
    SessionState :=
  if s.isUpdating then s
  else
    let p := runCommandAsync s env
    if p.2 then { p.1 with inFlightPreview := isPreview } else p.1

/-- LatexController::handleTexChanged (lines 238-247): store the new buffer
text in currentTex, then trigger a preview update. -/
def handleTexChanged (s : SessionState) (t : String) (env : SpawnEnv) :
    SessionState :=
  triggerImageUpdate { s with currentTex := t } true env

/-- LatexController::onPdfRenderComplete (lines 249-302).  The watched
process is reaped; shouldUpdate snapshots whether the text changed since
the render was submitted (line 258); a nonzero exit marks the formula
invalid, shows an environment-error dialog unless the exit status is the
reserved value 1, and deletes the scratch tex.pdf if present; exit 0 marks
the formula valid and either rebuilds the preview (isPreview) or inserts
the image into the document; finally setUpdating(false) runs and, when
shouldUpdate, exactly one follow-up triggerImageUpdate(true). -/
def onPdfRenderComplete (s : SessionState) (code : Int) (a : ArtifactInfo)
    (env : SpawnEnv) : SessionState :=
  let s0 := { s with outstanding := s.outstanding - 1 }
  let shouldUpdate := s0.lastPreviewedTex != s0.currentTex
  let s1 :=
    if code ≠ 0 then
      let sA := { s0 with isValidTex := false }
      let sB :=
        if code ≠ 1
        then { sA with toolErrorShown := sA.toolErrorShown + 1 }
        else sA
      { sB with scratchPdfExists := false }
    else
      let sA := { s0 with isValidTex := true, scratchPdfExists := a.fileExists }
      if sA.inFlightPreview then
        let sB := { sA with temporaryRender := none }
        -- Line 283: temporaryRender = loadRendered().  A parsable zero-page
        -- artifact would crash the program here (LoadResult.crash, see
        -- loadRendered); the event machine keeps total steps and collapses
        -- that abort to the absent preview it leaves behind, as the result
        -- loader had already deleted the previous render.  The loop
        -- theorems stated over this machine do not inspect that case: the
        -- preview-content claim (C8) assumes an artifact with at least one
        -- page, and the single-flight / re-trigger claims are independent
        -- of the artifact contents.  The crash itself is treated faithfully
        -- on the commit path (insertTexImage).
        { sB with
          temporaryRender :=
            match loadRendered sB.posx sB.posy sB.imgwidth sB.imgheight
                sB.currentTex a with
            | LoadResult.crash => none
            | LoadResult.ok img => img }
      else
        { sA with insertCount := sA.insertCount + 1 }
  let s2 := setUpdating s1 false
  if shouldUpdate then triggerImageUpdate s2 true env else s2

/-- Events delivered to the controller by the GTK main loop while the
dialog is open: a buffer-changed signal carrying the new text, or a
child-watch completion carrying the exit status and the state of the
scratch artifact.  Each event also fixes how the environment behaves if a
spawn is attempted while handling it. -/
inductive LxEvent where
  | texChanged (t : String) (env : SpawnEnv)
  | renderComplete (code : Int) (a : ArtifactInfo) (env : SpawnEnv)

/-- Single dispatch step of the event loop.  A completion callback can only
fire for a process that was actually spawned, so renderComplete is enabled
only when a process is outstanding; the g_assert(isUpdating) at line 254
is justified by the session invariant. -/
def step (s : SessionState) : LxEvent → Option SessionState
  | LxEvent.texChanged t env => some (handleTexChanged s t env)
  | LxEvent.renderComplete code a env =>
      if s.outstanding = 0 then none
      else some (onPdfRenderComplete s code a env)

/-- Run of a sequence of events, defined only when every completion event
is enabled in the state where it fires. -/
def runTrace (s : SessionState) : List LxEvent → Option SessionState
  | [] => some s
  | e :: es =>
      match step s e with
      | some s1 => runTrace s1 es
      | none => none

/-- Session invariant: at most one child process is outstanding, and the
isUpdating flag is set exactly while one is. -/
def SessionInv (s : SessionState) : Prop :=
  s.outstanding ≤ 1 ∧ (s.isUpdating = true ↔ s.outstanding = 1)

instance (s : SessionState) : Decidable (SessionInv s) := by
  unfold SessionInv; infer_instance

/-- Modelled from the spec: StringUtils::trim is repository code not under
src/; per the spec wording a formula that "trims to empty" is one that is
all whitespace, so trim removes leading and trailing whitespace. -/
def trimStr (s : String) : String :=
  let ws := fun c : Char => c == ' ' || c == '\t' || c == '\n' || c == '\r'
  String.mk (((s.toList.dropWhile ws).reverse.dropWhile ws).reverse)

/-- Selection present when the session starts: nothing, a previous TexImage
element, or a plain Text element, each with its text and element size. -/
inductive Selected where
  | selNone
  | selTexImage (text : String) (w h : ℚ)
  | selText (text : String) (w h : ℚ)
  deriving Repr, DecidableEq

/-- Modelled from the spec: the LatexController constructor and field
initialisers live in LatexController.h, which is not under src/.  The
RenderSession of the spec starts with empty text fields, no render in
flight and no successful render yet. -/
def initialState : SessionState :=
  { currentTex := "", lastPreviewedTex := "", initalTex := "",
    posx := 0, posy := 0, imgwidth := 0, imgheight := 0,
    isUpdating := false, isValidTex := false, temporaryRender := none,
    okSensitive := true, errorLabel := "", scratchPdfExists := false,
    inFlightPreview := true, outstanding := 0, spawnCount := 0,
    toolErrorShown := 0, insertCount := 0 }

/-- LatexController::findSelectedTexElement (lines 128-184).  Early returns
when there is no current page or no view leave the state untouched.
Otherwise the initial text is taken from a selected TexImage, or is the
selected Text wrapped in a text command, with the element size remembered;
an empty result falls back to the literal x^2; currentTex is set to the
initial text. -/
def findSelectedTexElement (pageFound viewFound : Bool) (sel : Selected)
    (anchorX anchorY : ℚ) (s : SessionState) : SessionState :=
  if !pageFound then s
  else if !viewFound then s
  else
    let s1 :=
      match sel with
      | Selected.selTexImage t w h =>
          { s with posx := anchorX, posy := anchorY,
                   initalTex := t, imgwidth := w, imgheight := h }
      | Selected.selText t w h =>
          { s with posx := anchorX, posy := anchorY,
                   initalTex := s.initalTex ++ "\\text\x7b" ++ t ++ "\x7d",
                   imgwidth := w, imgheight := h }
      | Selected.selNone => s
    let s2 :=
      if s1.initalTex.isEmpty then { s1 with initalTex := "x^2" } else s1
    { s2 with currentTex := s2.initalTex }

/-- LatexController::showTexEditDialog (lines 186-210), reduced to its
effect on the session state at the moment the dialog closes: the previous
preview render is deleted and currentTex becomes the final dialog text with
a single space appended (lines 205-207).  The live-preview event loop while
the dialog is open is the trace machine above. -/
def closeTexEditDialog (s : SessionState) (dialogText : String) :
    SessionState :=
  { s with temporaryRender := none, currentTex := dialogText ++ " " }

/-- Host document state touched by the commit path: the elements added to
the active layer (a null image is representable, matching the unchecked
pointer in the source), the count of previously selected elements removed,
the insert-undo records pushed, and the selection set at the end.  The
crashed flag is a ghost marker: it records that the program aborted (the
zero-page NULL dereference in loadRendered) with the document in exactly
this state — once set, no further mutation is performed. -/
structure DocState where
  layerElems : List (Option TexImage)
  removedOldCount : Nat
  undoStack : List (Option TexImage)
  selection : Option (Option TexImage)
  crashed : Bool
  deriving Repr, DecidableEq

/-- LatexController::deleteOldImage (lines 366-384): if a TexImage or a
Text element was selected at session start it is removed from the document
through the deletion pathway. -/
def deleteOldImage (hasTexSel hasTextSel : Bool) (d : DocState) : DocState :=
  if hasTexSel then { d with removedOldCount := d.removedOldCount + 1 }
  else if hasTextSel then { d with removedOldCount := d.removedOldCount + 1 }
  else d

/-- LatexController::insertTexImage (lines 490-510): loads the rendered
artifact (possibly obtaining a null image), removes the old element, adds
the image to the layer, pushes an InsertUndoAction and selects the image —
none of it conditioned on the returned pointer being non-null.  When
loadRendered crashes (parsable zero-page artifact), the program aborts
inside the load call: none of the subsequent mutations happen, recorded by
the crashed ghost flag on an otherwise untouched document. -/
def insertTexImage (posx posy imgwidth imgheight : ℚ) (currentTex : String)
    (hasTexSel hasTextSel : Bool) (a : ArtifactInfo) (d : DocState) :
    DocState :=
  match loadRendered posx posy imgwidth imgheight currentTex a with
  | LoadResult.crash => { d with crashed := true }
  | LoadResult.ok img =>
      let d1 := deleteOldImage hasTexSel hasTextSel d
      let d2 := { d1 with layerElems := d1.layerElems ++ [img] }
      let d3 := { d2 with undoStack := d2.undoStack ++ [img] }
      { d3 with selection := some img }

/-- LatexController::run (lines 512-534), the commit skeleton: abort if
pdflatex is absent; read the selection context; run the dialog (whose final
effect on currentTex is closeTexEditDialog); if the current text trims to
empty or equals the initial text, return without touching the document;
otherwise insert the image.  Returns the document and the final session
state. -/
def runCommit (texFound pageFound viewFound : Bool) (sel : Selected)
    (anchorX anchorY : ℚ) (dialogText : String) (a : ArtifactInfo)
    (d : DocState) : DocState × SessionState :=
  let s := initialState
  if !texFound then (d, s)
  else
    let s1 := findSelectedTexElement pageFound viewFound sel anchorX anchorY s
    let s2 := closeTexEditDialog s1 dialogText
    if (trimStr s2.currentTex).isEmpty || s2.initalTex == s2.currentTex then
      (d, s2)
    else
      let hasTexSel := match sel with
        | Selected.selTexImage _ _ _ => true
        | _ => false
      let hasTextSel := match sel with
        | Selected.selText _ _ _ => true
        | _ => false
      (insertTexImage s2.posx s2.posy s2.imgwidth s2.imgheight s2.currentTex
        hasTexSel hasTextSel a d, s2)

/-- Concrete well-formed artifact: tex.pdf exists, reads, parses, one page
of width 4 and height 2. -/
def demoArtifact : ArtifactInfo :=
  { fileExists := true, readOk := true, contents := "PDFBYTES",
    parseOk := true, nPages := 1, pageWidth := 4, pageHeight := 2 }

/-- Concrete artifact whose file is missing (the loader returns NULL). -/
def missingArtifact : ArtifactInfo :=
  { fileExists := false, readOk := false, contents := "",
    parseOk := false, nPages := 0, pageWidth := 0, pageHeight := 0 }

/-- Concrete artifact that exists, reads and parses but has zero pages:
the loader crashes on it (NULL dereference at line 483). -/
def zeroPageArtifact : ArtifactInfo :=
  { fileExists := true, readOk := true, contents := "PDF0",
    parseOk := true, nPages := 0, pageWidth := 0, pageHeight := 0 }

/-- Empty host document. -/
def emptyDoc : DocState :=
  { layerElems := [], removedOldCount := 0, undoStack := [],
    selection := none, crashed := false }

/-- Session state with a render in flight for the text a while the current
text is still a (no edit during the render). -/
def upToDateFly : SessionState :=
  { initialState with
    currentTex := "a",
    lastPreviewedTex := "a",
    isUpdating := true,
    outstanding := 1 }

/-- Session state with a render in flight for the text a after the input
was edited to b during the render. -/
def staleFly : SessionState :=
  { upToDateFly with currentTex := "b" }

/-- Session state with a render in flight for the unchanged text a, the
formula currently valid and the scratch tex.pdf present. -/
def validUpToDateFly : SessionState :=
  { upToDateFly with
    isValidTex := true,
    scratchPdfExists := true }

/-- Event trace that spawns a render for a, receives a successful
completion, then edits the text to b, spawning a second render. -/
def demoTrace : List LxEvent :=
  [LxEvent.texChanged "a" SpawnEnv.ok,
   LxEvent.renderComplete 0 demoArtifact SpawnEnv.ok,
   LxEvent.texChanged "b" SpawnEnv.ok]

/-- Final state of demoTrace. -/
def demoFinal : SessionState :=
  (runTrace initialState demoTrace).getD initialState

/-- C9 counterexample: a parsable zero-page artifact is one of the load
failures the claim enumerates, and for it the claim says the commit path
still adds the null result to the layer and pushes an undo record; in the
source, loadRendered dereferences the NULL returned by
convertDocumentToImage (line 483) and the program crashes before
deleteOldImage, addElement or addUndoAction run: the document gains no
element, no undo record, keeps its selection, and the abort is recorded. -/
theorem latex_zero_page_crash_cex :
    loadRendered 0 0 0 0 "x^2 " zeroPageArtifact = LoadResult.crash ∧
    (insertTexImage 0 0 0 0 "x^2 " true false zeroPageArtifact
        emptyDoc).layerElems = [] ∧
    ([] : List (Option TexImage)) ≠ [] ++ [none] ∧
    (insertTexImage 0 0 0 0 "x^2 " true false zeroPageArtifact
        emptyDoc).undoStack = [] ∧
    (insertTexImage 0 0 0 0 "x^2 " true false zeroPageArtifact
        emptyDoc).removedOldCount = 0 ∧
    (insertTexImage 0 0 0 0 "x^2 " true false zeroPageArtifact
        emptyDoc).crashed = true := by decide

/-- C9 amended: commit is not conditioned on the loaded pointer being
non-null.  When loadRendered returns NULL (missing, unreadable or
unparsable artifact), insertTexImage still removes the previously selected
element, appends the null result to the layer, pushes an undo record for
it and selects it.  The remaining enumerated failure, a parsable zero-page
artifact, never reaches the commit path: loadRendered crashes (NULL
dereference at line 483) and the document is left exactly as it was, with
the abort recorded in the crashed flag. -/
theorem latex_commit_ignores_load_failure (px py iw ih : ℚ) (tex : String)
    (hasTexSel hasTextSel : Bool) (a : ArtifactInfo) (d : DocState) :
    (loadRendered px py iw ih tex a = LoadResult.ok none →
      (insertTexImage px py iw ih tex hasTexSel hasTextSel a d).layerElems
          = d.layerElems ++ [none] ∧
      (insertTexImage px py iw ih tex hasTexSel hasTextSel a d).undoStack
          = d.undoStack ++ [none] ∧
      (insertTexImage px py iw ih tex hasTexSel hasTextSel a d).selection
          = some none ∧
      (insertTexImage px py iw ih tex hasTexSel hasTextSel
          a d).removedOldCount
          = d.removedOldCount
              + (if hasTexSel || hasTextSel then 1 else 0)) ∧
    (a.fileExists = true → a.readOk = true → a.parseOk = true →
      a.nPages = 0 →
      loadRendered px py iw ih tex a = LoadResult.crash) ∧
    (loadRendered px py iw ih tex a = LoadResult.crash →
      insertTexImage px py iw ih tex hasTexSel hasTextSel a d
          = { d with crashed := true }) := by
  refine ⟨?_, ?_, ?_⟩
  · intro hload
    cases hasTexSel <;> cases hasTextSel <;>
      simp [insertTexImage, deleteOldImage, hload]
  · intro hex hrd hpk hnp
    simp [loadRendered, convertDocumentToImage, hex, hrd, hpk, hnp]
  · intro hload
    simp [insertTexImage, hload]

/-- Witness for C9 at concrete inputs: a missing artifact makes the empty
document gain a null layer element while removing the selected old image,
and the zero-page artifact crashes the loader, leaving the document
untouched apart from the crash marker. -/
theorem latex_commit_ignores_load_failure_witness :
    (insertTexImage 0 0 0 0 "x^2 " true false missingArtifact
        emptyDoc).layerElems = emptyDoc.layerElems ++ [none] ∧
    (insertTexImage 0 0 0 0 "x^2 " true false missingArtifact
        emptyDoc).removedOldCount = emptyDoc.removedOldCount + 1 ∧
    loadRendered 0 0 0 0 "x^2 " zeroPageArtifact = LoadResult.crash ∧
    insertTexImage 0 0 0 0 "x^2 " true false zeroPageArtifact emptyDoc
        = { emptyDoc with crashed := true } :=
  ⟨((latex_commit_ignores_load_failure 0 0 0 0 "x^2 " true false
      missingArtifact emptyDoc).1 (by decide)).1,
   ((latex_commit_ignores_load_failure 0 0 0 0 "x^2 " true false
      missingArtifact emptyDoc).1 (by decide)).2.2.2,
   (latex_commit_ignores_load_failure 0 0 0 0 "x^2 " true false
      zeroPageArtifact emptyDoc).2.1 (by decide) (by decide) (by decide)
      (by decide),
   (latex_commit_ignores_load_failure 0 0 0 0 "x^2 " true false
      zeroPageArtifact emptyDoc).2.2 (by decide)⟩

/-- C10: default initial input.  On the path where a page and a view exist,
the derived initial input is never empty: with no selection, or a selected
TexImage whose stored text is empty, it is the literal x^2; with a selected
TexImage carrying nonempty text it is that text; with a selected Text
element it is that text wrapped in a LaTeX text command; currentTex is
initialised to it. -/
lemma isEmpty_eq_false_of_ne (s : String) (h : s ≠ "") :
    s.isEmpty = false := by
  cases hti : s.isEmpty
  · rfl
  · exact absurd ((String.isEmpty_iff s).mp hti) h

lemma wrapText_ne_empty (t : String) :
    "\\text\x7b" ++ t ++ "\x7d" ≠ "" := by
  intro h
  have := congrArg String.data h
  simp at this

theorem latex_initial_input (sel : Selected) (ax ay : ℚ) :
    ((findSelectedTexElement true true sel ax ay initialState).initalTex ≠ "") ∧
    ((findSelectedTexElement true true sel ax ay initialState).currentTex
        = (findSelectedTexElement true true sel ax ay initialState).initalTex) ∧
    (sel = Selected.selNone →
      (findSelectedTexElement true true sel ax ay initialState).initalTex
        = "x^2") ∧
    (∀ t w h, sel = Selected.selTexImage t w h → t = "" →
      (findSelectedTexElement true true sel ax ay initialState).initalTex
        = "x^2") ∧
    (∀ t w h, sel = Selected.selTexImage t w h → t ≠ "" →
      (findSelectedTexElement true true sel ax ay initialState).initalTex
        = t) ∧
    (∀ t w h, sel = Selected.selText t w h →
      (findSelectedTexElement true true sel ax ay initialState).initalTex
        = "\\text\x7b" ++ t ++ "\x7d") := by
  have hemp : ("" : String).isEmpty = true := rfl
  cases sel with
  | selNone => simp [findSelectedTexElement, initialState, hemp]
  | selTexImage t w h =>
      by_cases ht : t = ""
      · subst ht; simp [findSelectedTexElement, initialState, hemp]
      · simp [findSelectedTexElement, initialState,
          isEmpty_eq_false_of_ne t ht, ht]
  | selText t w h =>
      have hne := wrapText_ne_empty t
      have hne' := isEmpty_eq_false_of_ne _ hne
      simp [findSelectedTexElement, initialState, hne', hne]

/-- Witness for C10 at concrete inputs: selecting nothing yields x^2, and
selecting a Text element with text hi yields the wrapped form. -/
theorem latex_initial_input_witness :
    ((findSelectedTexElement true true Selected.selNone 1 2
        initialState).initalTex = "x^2") ∧
    ((findSelectedTexElement true true (Selected.selText "hi" 3 4) 1 2
        initialState).initalTex = "\\text\x7bhi\x7d") :=
  ⟨(latex_initial_input Selected.selNone 1 2).2.2.1 rfl,
   by
    have := (latex_initial_input (Selected.selText "hi" 3 4) 1 2).2.2.2.2.2
      "hi" 3 4 rfl
    simpa using this⟩

/-- C7 counterexample: with a prior height of 5, a prior width of 3, and a
parsed page of width 1 and height 0, the claim says the computed width
falls back to the prior width 3; the code computes ratio = 1 / 0, which is
an IEEE infinity and not equal to 0, so the width becomes
imgheight * ratio = infinity, not 3. -/
theorem latex_aspect_zero_height_cex :
    (convertDocumentToImage 1 1 0 0 0 "t" 3 5).map TexImage.width
      = some Fp.inf ∧ Fp.inf ≠ Fp.fin 3 := by decide

/-- C7 amended: with at least one page and a prior height H ≠ 0, the
height is H and the width is H * (W / Hp) whenever both page dimensions
are nonzero; the fallback to the prior width (default 10 when the prior
width is zero) triggers exactly when the computed ratio W / Hp equals
zero, that is when W = 0 and Hp ≠ 0; when Hp = 0 the ratio is non-finite
(infinity for W ≠ 0, NaN for W = 0) and so is the resulting width; with
no prior height the asset takes the native page dimensions. -/
theorem latex_aspect_computation (nPages : Nat) (W Hp posx posy iw ih : ℚ)
    (t : String) (hn : 1 ≤ nPages) :
    (ih ≠ 0 → Hp ≠ 0 → W ≠ 0 →
      convertDocumentToImage nPages W Hp posx posy t iw ih =
        some { x := posx, y := posy, text := t,
               width := Fp.fin (ih * (W / Hp)), height := Fp.fin ih,
               binaryData := "" }) ∧
    (ih ≠ 0 → Hp ≠ 0 → W = 0 → iw ≠ 0 →
      convertDocumentToImage nPages W Hp posx posy t iw ih =
        some { x := posx, y := posy, text := t,
               width := Fp.fin iw, height := Fp.fin ih,
               binaryData := "" }) ∧
    (ih ≠ 0 → Hp ≠ 0 → W = 0 → iw = 0 →
      convertDocumentToImage nPages W Hp posx posy t iw ih =
        some { x := posx, y := posy, text := t,
               width := Fp.fin 10, height := Fp.fin ih,
               binaryData := "" }) ∧
    (ih ≠ 0 → Hp = 0 → W ≠ 0 →
      convertDocumentToImage nPages W Hp posx posy t iw ih =
        some { x := posx, y := posy, text := t,
               width := Fp.inf, height := Fp.fin ih,
               binaryData := "" }) ∧
    (ih ≠ 0 → Hp = 0 → W = 0 →
      convertDocumentToImage nPages W Hp posx posy t iw ih =
        some { x := posx, y := posy, text := t,
               width := Fp.nan, height := Fp.fin ih,
               binaryData := "" }) ∧
    (ih = 0 →
      convertDocumentToImage nPages W Hp posx posy t iw ih =
        some { x := posx, y := posy, text := t,
               width := Fp.fin W, height := Fp.fin Hp,
               binaryData := "" }) := by
  have hlt : ¬ nPages < 1 := by omega
  refine ⟨?_, ?_, ?_, ?_, ?_, ?_⟩
  · intro hih hhp hw
    have hq : W / Hp ≠ 0 := div_ne_zero hw hhp
    simp [convertDocumentToImage, fpDiv, fpEqZero, fpMulFin, hlt, hih, hhp,
      hw, hq]
  · intro hih hhp hw hiw
    subst hw
    simp [convertDocumentToImage, fpDiv, fpEqZero, fpMulFin, hlt, hih, hhp,
      hiw]
  · intro hih hhp hw hiw
    subst hw; subst hiw
    simp [convertDocumentToImage, fpDiv, fpEqZero, fpMulFin, hlt, hih, hhp]
  · intro hih hhp hw
    subst hhp
    simp [convertDocumentToImage, fpDiv, fpEqZero, fpMulFin, hlt, hih, hw]
  · intro hih hhp hw
    subst hhp; subst hw
    simp [convertDocumentToImage, fpDiv, fpEqZero, fpMulFin, hlt, hih]
  · intro hih
    subst hih
    simp [convertDocumentToImage, fpDiv, fpEqZero, fpMulFin, hlt]

/-- Witness for C7 at concrete inputs: a one-page document of width 4 and
height 2 with prior height 5 yields width 5 * (4 / 2) = 10 and height 5;
with no prior height it yields the native 4 by 2. -/
theorem latex_aspect_computation_witness :
    convertDocumentToImage 1 4 2 0 0 "t" 3 5 =
      some { x := 0, y := 0, text := "t", width := Fp.fin 10,
             height := Fp.fin 5, binaryData := "" } ∧
    convertDocumentToImage 1 4 2 0 0 "t" 3 0 =
      some { x := 0, y := 0, text := "t", width := Fp.fin 4,
             height := Fp.fin 2, binaryData := "" } := by
  constructor
  · have h := (latex_aspect_computation 1 4 2 0 0 3 5 "t" (by decide)).1
      (by norm_num) (by norm_num) (by norm_num)
    rw [h]
    norm_num
  · exact (latex_aspect_computation 1 4 2 0 0 3 0 "t"
      (by decide)).2.2.2.2.2 rfl

/-- C3 is a code bug: LatexController::showTexEditDialog appends a space
to the dialog text (lines 206-207) before LatexController::run checks
initalTex == currentTex (line 526), so the unchanged-input guard can never
fire and closing the dialog with the text untouched still inserts an
element and pushes an undo record.  First conjuncts: with initial input
x^2 and the dialog closed with the same text x^2, the document gains a
layer element and an undo record and the final current text is the dialog
text plus a space.  Last conjuncts: the trims-to-empty half of the guard
does work (a whitespace dialog text leaves the document untouched). -/
theorem latex_noop_guard_defeated :
    ((runCommit true true true Selected.selNone 0 0 "x^2" demoArtifact
        emptyDoc).2.initalTex = "x^2") ∧
    ((runCommit true true true Selected.selNone 0 0 "x^2" demoArtifact
        emptyDoc).2.currentTex = "x^2 ") ∧
    ((runCommit true true true Selected.selNone 0 0 "x^2" demoArtifact
        emptyDoc).1.layerElems.length = 1) ∧
    ((runCommit true true true Selected.selNone 0 0 "x^2" demoArtifact
        emptyDoc).1.undoStack.length = 1) ∧
    (emptyDoc.layerElems.length = 0 ∧ emptyDoc.undoStack.length = 0) ∧
    ((runCommit true true true Selected.selNone 0 0 "   " demoArtifact
        emptyDoc).1 = emptyDoc) := by decide

/-- C4 is a code bug: the second gtk_widget_set_sensitive in
LatexController::setUpdating (line 319) unconditionally overwrites the
disable-while-updating write at line 314 with isValidTex, so after
setUpdating(true) with a valid formula the OK button stays sensitive.  The
trace spawns a render for a, receives a successful completion, then edits
the text to b, spawning a second render: in the final state a render is in
flight with a valid formula and the OK button is enabled.  The last
conjunct shows the Invalid half of the claim does hold: with an invalid
formula the button ends up insensitive. -/
theorem latex_ok_button_override :
    (runTrace initialState demoTrace = some demoFinal) ∧
    demoFinal.isUpdating = true ∧
    demoFinal.isValidTex = true ∧
    demoFinal.okSensitive = true ∧
    (setUpdating { initialState with isValidTex := false }
        true).okSensitive = false := by decide

@[simp] lemma setUpdating_currentTex (s : SessionState) (b : Bool) :
    (setUpdating s b).currentTex = s.currentTex := rfl

@[simp] lemma setUpdating_lastPreviewedTex (s : SessionState) (b : Bool) :
    (setUpdating s b).lastPreviewedTex = s.lastPreviewedTex := rfl

@[simp] lemma setUpdating_isUpdating (s : SessionState) (b : Bool) :
    (setUpdating s b).isUpdating = b := rfl

@[simp] lemma setUpdating_isValidTex (s : SessionState) (b : Bool) :
    (setUpdating s b).isValidTex = s.isValidTex := rfl

@[simp] lemma setUpdating_temporaryRender (s : SessionState) (b : Bool) :
    (setUpdating s b).temporaryRender = s.temporaryRender := rfl

@[simp] lemma setUpdating_okSensitive (s : SessionState) (b : Bool) :
    (setUpdating s b).okSensitive = s.isValidTex := rfl

@[simp] lemma setUpdating_scratchPdfExists (s : SessionState) (b : Bool) :
    (setUpdating s b).scratchPdfExists = s.scratchPdfExists := rfl

@[simp] lemma setUpdating_outstanding (s : SessionState) (b : Bool) :
    (setUpdating s b).outstanding = s.outstanding := rfl

@[simp] lemma setUpdating_spawnCount (s : SessionState) (b : Bool) :
    (setUpdating s b).spawnCount = s.spawnCount := rfl

@[simp] lemma setUpdating_toolErrorShown (s : SessionState) (b : Bool) :
    (setUpdating s b).toolErrorShown = s.toolErrorShown := rfl

@[simp] lemma setUpdating_insertCount (s : SessionState) (b : Bool) :
    (setUpdating s b).insertCount = s.insertCount := rfl

lemma triggerImageUpdate_isValidTex (s : SessionState) (p : Bool)
    (env : SpawnEnv) :
    (triggerImageUpdate s p env).isValidTex = s.isValidTex := by
  by_cases h : s.isUpdating <;> cases env <;>
    simp [triggerImageUpdate, runCommandAsync, h]

lemma triggerImageUpdate_temporaryRender (s : SessionState) (p : Bool)
    (env : SpawnEnv) :
    (triggerImageUpdate s p env).temporaryRender = s.temporaryRender := by
  by_cases h : s.isUpdating <;> cases env <;>
    simp [triggerImageUpdate, runCommandAsync, h]

lemma triggerImageUpdate_scratchPdfExists (s : SessionState) (p : Bool)
    (env : SpawnEnv) :
    (triggerImageUpdate s p env).scratchPdfExists = s.scratchPdfExists := by
  by_cases h : s.isUpdating <;> cases env <;>
    simp [triggerImageUpdate, runCommandAsync, h]

/-- C5 counterexample: a tool failure (exit status 2, not the reserved 1)
arriving while a render is in flight for an up-to-date valid formula does
set the validity flag to invalid, where the claim says it must not. -/
theorem latex_toolfailure_marks_invalid_cex :
    validUpToDateFly.isValidTex = true ∧
    (onPdfRenderComplete validUpToDateFly 2 demoArtifact
        SpawnEnv.ok).isValidTex = false := by decide

/-- C5 amended: on a completion with a nonzero exit status other than the
reserved render-error status 1, the failure is reported to the user as a
tool error, the scratch artifact is deleted, the in-flight flag is cleared
and no process is outstanding (the session returns to Idle when no newer
input is pending), and — unlike the claim — the validity flag IS set to
invalid, exactly as for a render error. -/
theorem latex_toolfailure_handling (s : SessionState) (code : Int)
    (a : ArtifactInfo) (env : SpawnEnv) (h : SessionInv s)
    (hfly : s.isUpdating = true) (hnz : code ≠ 0) (hn1 : code ≠ 1)
    (hstale : s.lastPreviewedTex = s.currentTex) :
    (onPdfRenderComplete s code a env).toolErrorShown
        = s.toolErrorShown + 1 ∧
    (onPdfRenderComplete s code a env).scratchPdfExists = false ∧
    (onPdfRenderComplete s code a env).isUpdating = false ∧
    (onPdfRenderComplete s code a env).outstanding = 0 ∧
    (onPdfRenderComplete s code a env).isValidTex = false := by
  have h1 : s.outstanding = 1 := h.2.mp hfly
  simp [onPdfRenderComplete, hnz, hn1, hstale, h1]

/-- Witness for C5 at a concrete input: exit status 2 while a render for
the unchanged text a is in flight. -/
theorem latex_toolfailure_handling_witness :
    (onPdfRenderComplete upToDateFly 2 demoArtifact
        SpawnEnv.ok).toolErrorShown = upToDateFly.toolErrorShown + 1 ∧
    (onPdfRenderComplete upToDateFly 2 demoArtifact
        SpawnEnv.ok).isValidTex = false := by
  have h := latex_toolfailure_handling upToDateFly 2 demoArtifact
    SpawnEnv.ok (by decide) (by decide) (by decide) (by decide) (by decide)
  exact ⟨h.1, h.2.2.2.2⟩

/-- C6: on a completion with the reserved render-error exit status 1 while
a render for the current text is in flight, the session is marked invalid,
the OK button is insensitive, the scratch tex.pdf no longer exists, no
environment-error dialog is shown, the in-flight flag is cleared, and the
commit control stays insensitive under any further setUpdating call while
the formula remains invalid. -/
theorem latex_rendererror_handling (s : SessionState) (a : ArtifactInfo)
    (env : SpawnEnv) (h : SessionInv s) (hfly : s.isUpdating = true)
    (hstale : s.lastPreviewedTex = s.currentTex) :
    (onPdfRenderComplete s 1 a env).isValidTex = false ∧
    (onPdfRenderComplete s 1 a env).okSensitive = false ∧
    (onPdfRenderComplete s 1 a env).scratchPdfExists = false ∧
    (onPdfRenderComplete s 1 a env).toolErrorShown = s.toolErrorShown ∧
    (onPdfRenderComplete s 1 a env).isUpdating = false ∧
    (∀ b, (setUpdating (onPdfRenderComplete s 1 a env) b).okSensitive
        = false) := by
  have h1 : s.outstanding = 1 := h.2.mp hfly
  simp [onPdfRenderComplete, hstale, h1]

/-- Witness for C6 at a concrete input: exit status 1 while a render for
the unchanged text a is in flight from a previously valid state. -/
theorem latex_rendererror_handling_witness :
    (onPdfRenderComplete validUpToDateFly 1 demoArtifact
        SpawnEnv.ok).isValidTex = false ∧
    (onPdfRenderComplete validUpToDateFly 1 demoArtifact
        SpawnEnv.ok).okSensitive = false ∧
    (onPdfRenderComplete validUpToDateFly 1 demoArtifact
        SpawnEnv.ok).scratchPdfExists = false := by
  have h := latex_rendererror_handling validUpToDateFly demoArtifact
    SpawnEnv.ok (by decide) (by decide) (by decide)
  exact ⟨h.1, h.2.1, h.2.2.1⟩

/-- C8 counterexample: a render was submitted for the text a, the input
was edited to b while it was in flight, and the render succeeds; the
preview asset ends up carrying source text b, not the submitted text a. -/
theorem latex_sourcetext_stale_cex :
    staleFly.lastPreviewedTex = "a" ∧ staleFly.currentTex = "b" ∧
    ((onPdfRenderComplete staleFly 0 demoArtifact
        SpawnEnv.ok).temporaryRender.map TexImage.text) = some "b" ∧
    ("b" : String) ≠ "a" := by decide

/-- C8 amended: on a success completion (exit 0) of a preview render with
an existing, readable, parsable artifact of at least one page, the session
becomes valid and holds a preview asset whose source text equals the input
current at completion time — which equals the submitted text exactly when
the input did not change while the render was in flight. -/
theorem latex_sourcetext_completion (s : SessionState) (a : ArtifactInfo)
    (env : SpawnEnv) (hfly : s.isUpdating = true)
    (hprev : s.inFlightPreview = true) (hex : a.fileExists = true)
    (hrd : a.readOk = true) (hpk : a.parseOk = true) (hp : 1 ≤ a.nPages) :
    (onPdfRenderComplete s 0 a env).isValidTex = true ∧
    ((onPdfRenderComplete s 0 a env).temporaryRender.map TexImage.text)
      = some s.currentTex := by
  have hlt : ¬ a.nPages < 1 := by omega
  by_cases hsu : (s.lastPreviewedTex != s.currentTex) = true
  · simp [onPdfRenderComplete, hprev, hsu, hlt, loadRendered,
      convertDocumentToImage, hex, hrd, hpk,
      triggerImageUpdate_isValidTex, triggerImageUpdate_temporaryRender]
  · simp [onPdfRenderComplete, hprev, hsu, hlt, loadRendered,
      convertDocumentToImage, hex, hrd, hpk]

/-- Witness for C8 at a concrete input: completion of the render submitted
for a after an edit to b, with the demo artifact. -/
theorem latex_sourcetext_completion_witness :
    (onPdfRenderComplete staleFly 0 demoArtifact
        SpawnEnv.ok).isValidTex = true ∧
    ((onPdfRenderComplete staleFly 0 demoArtifact
        SpawnEnv.ok).temporaryRender.map TexImage.text)
      = some staleFly.currentTex :=
  latex_sourcetext_completion staleFly demoArtifact SpawnEnv.ok
    (by decide) (by decide) (by decide) (by decide) (by decide) (by decide)

lemma sessionInv_triggerImageUpdate (s : SessionState) (p : Bool)
    (env : SpawnEnv) (h : SessionInv s) :
    SessionInv (triggerImageUpdate s p env) := by
  obtain ⟨h1, h2⟩ := h
  by_cases hu : s.isUpdating
  · simpa [triggerImageUpdate, hu] using ⟨h1, h2⟩
  · have hz : s.outstanding = 0 := by
      rcases Nat.eq_or_lt_of_le h1 with he | hl
      · exact absurd (h2.mpr he) (by simpa using hu)
      · omega
    cases env <;>
      simp [triggerImageUpdate, runCommandAsync, SessionInv, hu, hz]

lemma sessionInv_setUpdating_false (s : SessionState)
    (hz : s.outstanding = 0) : SessionInv (setUpdating s false) := by
  constructor
  · simp [hz]
  · simp [hz]

lemma sessionInv_onPdfRenderComplete (s : SessionState) (code : Int)
    (a : ArtifactInfo) (env : SpawnEnv) (h : SessionInv s)
    (hout : s.outstanding ≠ 0) :
    SessionInv (onPdfRenderComplete s code a env) := by
  obtain ⟨h1, h2⟩ := h
  have h1' : s.outstanding = 1 := by omega
  by_cases hc : code = 0 <;> by_cases hc1 : code = 1 <;>
    by_cases hpv : s.inFlightPreview <;>
      by_cases hsu : (s.lastPreviewedTex != s.currentTex) = true <;>
        simp [onPdfRenderComplete, hc, hc1, hpv, hsu, h1'] <;>
        first
          | (apply sessionInv_triggerImageUpdate
             apply sessionInv_setUpdating_false
             simp)
          | (apply sessionInv_setUpdating_false
             simp)
          | (exfalso; omega)

lemma sessionInv_step (s s' : SessionState) (e : LxEvent)
    (h : SessionInv s) (hs : step s e = some s') : SessionInv s' := by
  cases e with
  | texChanged t env =>
      simp [step, handleTexChanged] at hs
      rw [← hs]
      refine sessionInv_triggerImageUpdate _ _ _ ?_
      exact ⟨h.1, h.2⟩
  | renderComplete code a env =>
      by_cases hz : s.outstanding = 0
      · simp [step, hz] at hs
      · simp [step, hz] at hs
        rw [← hs]
        exact sessionInv_onPdfRenderComplete s code a env h hz

lemma sessionInv_runTrace (tr : List LxEvent) :
    ∀ s s' : SessionState, SessionInv s → runTrace s tr = some s' →
      SessionInv s' := by
  induction tr with
  | nil =>
      intro s s' h hr
      simp [runTrace] at hr
      rw [← hr]; exact h
  | cons e es ih =>
      intro s s' h hr
      simp only [runTrace] at hr
      cases hstep : step s e with
      | none => rw [hstep] at hr; simp at hr
      | some s1 =>
          rw [hstep] at hr
          exact ih s1 s' (sessionInv_step s s1 e h hstep) hr

/-- C1: single-flight.  First conjunct: from any state satisfying the
session invariant (at most one child process outstanding, and the
isUpdating flag set exactly while one is), every legal event sequence
preserves it, so at most one render invocation is ever outstanding.
Second conjunct: an input change arriving while a render is in flight only
records the new text — the resulting state is literally the old state with
currentTex replaced, so no second invocation starts and a new one can only
start once a completion callback has cleared the flag. -/
theorem latex_single_flight :
    (∀ (s0 : SessionState) (tr : List LxEvent) (s1 : SessionState),
        SessionInv s0 → runTrace s0 tr = some s1 →
        s1.outstanding ≤ 1 ∧ (s1.isUpdating = true ↔ s1.outstanding = 1)) ∧
    (∀ (s : SessionState) (t : String) (env : SpawnEnv),
        s.isUpdating = true →
        step s (LxEvent.texChanged t env) =
          some { s with currentTex := t }) := by
  constructor
  · intro s0 tr s1 h hr
    exact sessionInv_runTrace tr s0 s1 h hr
  · intro s t env hu
    simp [step, handleTexChanged, triggerImageUpdate, hu]

/-- Witness for C1: the demo trace (spawn, completion, edit-and-respawn)
run from the initial state preserves the invariant, and an input change in
a state with a render in flight only records the text. -/
theorem latex_single_flight_witness :
    SessionInv initialState ∧
    runTrace initialState demoTrace = some demoFinal ∧
    (demoFinal.outstanding ≤ 1 ∧
      (demoFinal.isUpdating = true ↔ demoFinal.outstanding = 1)) ∧
    step staleFly (LxEvent.texChanged "c" SpawnEnv.ok) =
      some { staleFly with currentTex := "c" } := by
  refine ⟨by decide, by decide, ?_, ?_⟩
  · exact latex_single_flight.1 initialState demoTrace demoFinal
      (by decide) (by decide)
  · exact latex_single_flight.2 staleFly "c" SpawnEnv.ok (by decide)

end LatexCtl
